import Mathlib

/-!
Verification of the tracking-ai-analytics-project repository.

The development shallowly embeds the parts of the TypeScript source that the
verified properties are about:

* `backend/src/services/aiQueryService.ts` — natural-language-to-SQL guard
  (`validateSQL`, `processNaturalLanguageQuery`, `executeQuery`);
* `backend/src/routes/events.ts` — ingestion gateway (single and batch event
  routes, Joi validation schemas, side-effect ordering);
* `backend/src/routes/analytics.ts` — funnel conversion computation;
* `backend/src/services/realtimeService.ts` — real-time fan-out
  (`broadcastEvent`);
* `sdk/web/src/index.ts` — client event buffer (`Analytics` class: `track`,
  `flush`, `sendEvents`, `sendEventsSync`, online/offline handling).

JavaScript strings are modelled by `String`, numbers that carry counts by
`Nat`, fractional arithmetic by exact rationals `ℚ`, and external
collaborators (ClickHouse, Redis, the network, the model API) by explicit
outcome parameters.  Each handler is a pure function from its inputs and the
collaborator outcomes to its response together with the ordered list of side
effects it performs.
-/

/-! ### String helpers (JS `String.prototype.includes`, `toLowerCase`, `toUpperCase`) -/

/-- Substring occurrence on character lists: `containsSub sub l` is true iff
`sub` occurs contiguously inside `l`.  This models JavaScript
`l.includes(sub)`. -/
def containsSub (sub : List Char) : List Char → Bool
  | [] => sub.isEmpty
  | c :: t => sub.isPrefixOf (c :: t) || containsSub sub t

/-- JS `s.includes(sub)`. -/
def strIncludes (s sub : String) : Bool := containsSub sub.data s.data

/-- JS `s.toLowerCase()` (ASCII, which is all the source compares). -/
def strToLower (s : String) : String := String.mk (s.data.map Char.toLower)

/-- JS `s.toUpperCase()` (ASCII). -/
def strToUpper (s : String) : String := String.mk (s.data.map Char.toUpper)

/-! ### AI query service (`backend/src/services/aiQueryService.ts`) -/

namespace AIQuery

/-- The dangerous-keyword list of `validateSQL`
(`const dangerousKeywords = ['drop', 'delete', 'update', 'insert', 'alter', 'create']`). -/
def dangerousKeywords : List String :=
  ["drop", "delete", "update", "insert", "alter", "create"]

/-- The `errors` array built by `validateSQL` (ai_service.ts lines 420-441):
no `select` (case-insensitive) pushes a SELECT error, missing literal
`project_id` pushes the security error, and each dangerous keyword found in
the lowercased SQL pushes a dangerous-operation error. -/
def validateSQLErrors (sql : String) : List String :=
  (if strIncludes (strToLower sql) "select" then []
   else ["Query must be a SELECT statement"])
  ++ (if strIncludes sql "project_id" then []
      else ["Query must include project_id filter for security"])
  ++ dangerousKeywords.filterMap (fun kw =>
      if strIncludes (strToLower sql) kw then
        some ("Dangerous operation detected: " ++ strToUpper kw)
      else none)

/-- The `warnings` array built by `validateSQL` (ai_service.ts lines 443-450). -/
def validateSQLWarnings (sql : String) : List String :=
  (if strIncludes (strToLower sql) "limit" then []
   else ["Consider adding LIMIT clause for better performance"])
  ++ (if strIncludes (strToLower sql) "timestamp >="
        || strIncludes (strToLower sql) "timestamp between" then []
      else ["Consider adding timestamp filter for better performance"])

/-- Result record of `validateSQL`. -/
structure SQLValidation where
  isValid : Bool
  errors : List String
  warnings : List String
deriving DecidableEq

/-- Embedding of `AIQueryService.validateSQL`.  The error and warning checks
are translated from ai_service.ts lines 420-450.  `explainOk` is the outcome
of the `EXPLAIN SYNTAX` probe sent to ClickHouse, which the source only runs
when no error was recorded.  Modelled from the spec: the return tail of
`validateSQL` is truncated out of the source file, so the final result is
modelled per the spec (a query is rejected exactly when an error was
recorded, and a failing syntax probe on an otherwise clean query records an
error). -/
def validateSQL (sql : String) (explainOk : Bool) : SQLValidation :=
  let errs := validateSQLErrors sql
  let errs := if errs.isEmpty && !explainOk then ["EXPLAIN SYNTAX failed"] else errs
  { isValid := errs.isEmpty, errors := errs, warnings := validateSQLWarnings sql }

/-- The `context` argument of `processNaturalLanguageQuery`
(interface `QueryContext`). -/
structure QueryContext where
  project_id : String
  user_id : Option String := none
  date_range : Option String := none
  limit : Option Nat := none

/-- JS `context.limit || 1000` (ai_service.ts line 243): the fallback fires
when `limit` is absent or `0`, otherwise the caller-supplied limit is used. -/
def jsOrDefaultLimit : Option Nat → Nat
  | some n => if n = 0 then 1000 else n
  | none => 1000

/-- The `limit` bound admitted by `aiQuerySchema`
(`Joi.number().integer().min(1).max(10000)`). -/
def aiQueryLimitValid (n : Nat) : Bool := 1 ≤ n && n ≤ 10000

/-- Modelled from the spec: the body of `AIQueryService.executeQuery` is
truncated out of the source file (only its call site survives), so per the
spec it executes the query against the store and enforces its `limit`
argument as a result cap: at most `limit` of the store rows are returned. -/
def executeQuery {α : Type} (rows : List α) (limit : Nat) : List α :=
  rows.take limit

/-- Result record of `processNaturalLanguageQuery` (interface `AIQueryResult`),
with `data` generalized over an opaque row type. -/
structure AIQueryResult (α : Type) where
  sql : String
  data : List α
  error : Option String
deriving DecidableEq

/-- Embedding of `AIQueryService.processNaturalLanguageQuery`
(ai_service.ts lines 218-265).  The text-generation collaborator is
represented by its extracted output `generatedSQL` (`none` when no query
could be generated), the ClickHouse syntax probe by `explainOk`, and the
store response to the generated query by `storeRows`.  A generation failure
or a validation rejection produces an error result with no data; otherwise
the query is executed with the cap `context.limit || 1000`. -/
def processNaturalLanguageQuery {α : Type} (question : String) (ctx : QueryContext)
    (generatedSQL : Option String) (explainOk : Bool) (storeRows : List α) :
    AIQueryResult α :=
  match generatedSQL with
  | none => { sql := "", data := [], error := some "Failed to generate SQL query" }
  | some sql =>
    let v := validateSQL sql explainOk
    if v.isValid then
      { sql := sql
        data := executeQuery storeRows (jsOrDefaultLimit ctx.limit)
        error := none }
    else
      { sql := sql
        data := []
        error := some ("Invalid SQL: " ++ String.intercalate ", " v.errors) }

/-- Helper: an error recorded by the textual checks survives to the returned
validation record and forces rejection. -/
theorem validateSQL_mem_errors {sql e : String} (b : Bool)
    (h : e ∈ validateSQLErrors sql) :
    (validateSQL sql b).isValid = false ∧
      (validateSQL sql b).errors = validateSQLErrors sql := by
  have hne : (validateSQLErrors sql).isEmpty = false := by
    cases hl : validateSQLErrors sql with
    | nil => rw [hl] at h; cases h
    | cons a t => rfl
  constructor <;> simp [validateSQL, hne]

end AIQuery

/-! ### Claims C1 and C2: the validation gate of generated SQL -/

/-- Concrete SQL used to refute claim C1: it is a plain SELECT, mentions the
column name `project_id` in its select list, and has no `WHERE` clause at
all, hence no tenant-scope filter. -/
def c1sql : String := "SELECT project_id FROM events LIMIT 5"

/-- C1 counterexample: the claim demands that every query without a
tenant-scoping WHERE condition be marked invalid, but `validateSQL` only
checks for the substring `project_id`.  The concrete query `c1sql` contains
no `where` at all (so certainly no WHERE condition restricting `project_id`
to the requesting tenant), yet validation accepts it (`isValid = true`)
when the syntax probe succeeds. -/
theorem c1_no_where_still_accepted :
    strIncludes (strToLower c1sql) "where" = false ∧
      (AIQuery.validateSQL c1sql true).isValid = true := by
  constructor
  · decide
  · decide

/-- C1 (amended): the tenant check of `validateSQL` is a textual substring
check — every query that does not contain the substring `project_id`
anywhere is marked invalid (and conversely a query containing that substring
anywhere passes the tenant check even without a scoping WHERE clause). -/
theorem c1_missing_project_id_rejected (sql : String) (explainOk : Bool)
    (h : strIncludes sql "project_id" = false) :
    (AIQuery.validateSQL sql explainOk).isValid = false := by
  have hmem : "Query must include project_id filter for security"
      ∈ AIQuery.validateSQLErrors sql := by
    simp [AIQuery.validateSQLErrors, h]
  exact (AIQuery.validateSQL_mem_errors explainOk hmem).1

/-- C1 witness: a concrete query with no `project_id` substring is rejected. -/
theorem c1_missing_project_id_rejected_witness :
    strIncludes "SELECT count() FROM events" "project_id" = false ∧
      (AIQuery.validateSQL "SELECT count() FROM events" true).isValid = false :=
  ⟨by decide, c1_missing_project_id_rejected "SELECT count() FROM events" true (by decide)⟩

/-- C2: any query containing one of the mutating keywords (insert, update,
delete, drop, alter, create) case-insensitively anywhere in its text gets a
`Dangerous operation detected` error recorded for that keyword and is marked
invalid; and any query with no `select` (case-insensitive) is marked
invalid. -/
theorem c2_mutating_keyword_rejected (sql : String) (explainOk : Bool) :
    (∀ kw ∈ AIQuery.dangerousKeywords,
       strIncludes (strToLower sql) kw = true →
         ("Dangerous operation detected: " ++ strToUpper kw)
             ∈ (AIQuery.validateSQL sql explainOk).errors ∧
           (AIQuery.validateSQL sql explainOk).isValid = false) ∧
    (strIncludes (strToLower sql) "select" = false →
       (AIQuery.validateSQL sql explainOk).isValid = false) := by
  constructor
  · intro kw hkw hocc
    have hmem : ("Dangerous operation detected: " ++ strToUpper kw)
        ∈ AIQuery.validateSQLErrors sql := by
      simp only [AIQuery.validateSQLErrors, List.mem_append, List.mem_filterMap]
      right
      exact ⟨kw, hkw, by simp [hocc]⟩
    have h := AIQuery.validateSQL_mem_errors explainOk hmem
    exact ⟨h.2 ▸ hmem, h.1⟩
  · intro hnosel
    have hmem : "Query must be a SELECT statement"
        ∈ AIQuery.validateSQLErrors sql := by
      simp [AIQuery.validateSQLErrors, hnosel]
    exact (AIQuery.validateSQL_mem_errors explainOk hmem).1

/-- Concrete query for the C2 witness: the mutating keyword appears only
inside a string literal of the query text. -/
def c2sql : String :=
  "SELECT event_name FROM events WHERE project_id = 7 AND note = (INSERT coin)"

/-- C2 witness: the concrete query containing `INSERT` inside a parenthesized
fragment is rejected with the keyword-specific error. -/
theorem c2_mutating_keyword_rejected_witness :
    ("Dangerous operation detected: " ++ strToUpper "insert")
        ∈ (AIQuery.validateSQL c2sql true).errors ∧
      (AIQuery.validateSQL c2sql true).isValid = false := by
  exact (c2_mutating_keyword_rejected c2sql true).1 "insert" (by decide) (by decide)

/-! ### Claim C3: the result cap of `processNaturalLanguageQuery` -/

/-- Concrete context refuting C3: the caller supplies `limit = 2000`,
which `aiQuerySchema` admits (its maximum is 10000). -/
def c3ctx : AIQuery.QueryContext := { project_id := "p1", limit := some 2000 }

/-- Concrete generated query for the C3 counterexample (passes validation). -/
def c3sql : String := "SELECT event_name FROM events WHERE project_id = 42 LIMIT 2000"

/-- C3 counterexample: with a schema-admissible `context.limit` of 2000 and a
store response of 1500 rows, a successful `processNaturalLanguageQuery`
returns 1500 data rows — more than the claimed hard cap of 1000.  The cap
passed to `executeQuery` is `context.limit || 1000`, so 1000 is only a
fallback default, not a ceiling. -/
theorem c3_cap_exceeded :
    AIQuery.aiQueryLimitValid 2000 = true ∧
      (AIQuery.processNaturalLanguageQuery "q" c3ctx (some c3sql) true
          (List.replicate 1500 (0 : Nat))).error = none ∧
      (AIQuery.processNaturalLanguageQuery "q" c3ctx (some c3sql) true
          (List.replicate 1500 (0 : Nat))).data.length = 1500 ∧
      1000 < 1500 := by
  have hres : AIQuery.processNaturalLanguageQuery "q" c3ctx (some c3sql) true
      (List.replicate 1500 (0 : Nat)) =
      { sql := c3sql
        data := (List.replicate 1500 (0 : Nat)).take 2000
        error := none } := rfl
  refine ⟨by decide, ?_, ?_, by decide⟩
  · rw [hres]
  · rw [hres]
    simp only [List.length_take, List.length_replicate]
    omega

/-- C3 (amended): the number of returned data rows is at most
`context.limit || 1000` — i.e. at most the caller-supplied limit when one is
given (which `aiQuerySchema` bounds by 10000), and at most the fallback 1000
only when no limit is supplied. -/
theorem c3_rows_at_most_effective_limit {α : Type} (question : String)
    (ctx : AIQuery.QueryContext) (generatedSQL : Option String)
    (explainOk : Bool) (storeRows : List α) :
    (AIQuery.processNaturalLanguageQuery question ctx generatedSQL explainOk
        storeRows).data.length ≤ AIQuery.jsOrDefaultLimit ctx.limit := by
  cases generatedSQL with
  | none => simp [AIQuery.processNaturalLanguageQuery]
  | some sql =>
    by_cases hv : (AIQuery.validateSQL sql explainOk).isValid = true
    · simp only [AIQuery.processNaturalLanguageQuery, hv, if_true, AIQuery.executeQuery]
      exact List.length_take_le _ _
    · simp [AIQuery.processNaturalLanguageQuery, hv]

/-! ### Ingestion gateway (`backend/src/routes/events.ts` and
`backend/src/utils/validation.ts`) -/

namespace Ingest

/-- Scalar property values admitted by `eventSchema.properties`
(`Joi.alternatives().try(Joi.string(), Joi.number(), Joi.boolean())`). -/
inductive PropVal
  | str (v : String)
  | num (v : Int)
  | boolean (v : Bool)
deriving DecidableEq

/-- Hex digit test used by the UUID format check (`0-9`, `a-f`, `A-F`). -/
def isHexChar (c : Char) : Bool :=
  c.isDigit || (97 ≤ c.toNat && c.toNat ≤ 102) || (65 ≤ c.toNat && c.toNat ≤ 70)

/-- Splits a character list at every dash, modelling `s.split('-')`. -/
def splitOnDash : List Char → List (List Char)
  | [] => [[]]
  | c :: t =>
    match splitOnDash t with
    | [] => [[]]
    | cur :: rest =>
      if c = '-' then [] :: cur :: rest else (c :: cur) :: rest

/-- Canonical 8-4-4-4-12 UUID format check, modelling `Joi.string().uuid()`. -/
def isUuid (s : String) : Bool :=
  match splitOnDash s.data with
  | [a, b, c, d, e] =>
    a.length == 8 && b.length == 4 && c.length == 4 && d.length == 4
      && e.length == 12
      && (a ++ b ++ c ++ d ++ e).all isHexChar
  | _ => false

/-- An incoming raw event payload before validation: every field may be
absent.  A well-typed `properties` map is assumed (the Joi pattern check on
it only constrains value types, which the `PropVal` type already does), and
`timestamp` stands for an already-parsed date in epoch milliseconds. -/
structure RawEvent where
  user_id : Option String := none
  event_name : Option String := none
  properties : Option (List (String × PropVal)) := none
  timestamp : Option Nat := none
  session_id : Option String := none
  platform : Option String := none
deriving DecidableEq

/-- A structured validation error, modelling one Joi `error.details` entry:
the path identifies the offending field. -/
structure VError where
  path : List String
  message : String
deriving DecidableEq

/-- An event that passed `eventSchema` validation, with defaults applied
(`properties` defaults to the empty map, `timestamp` to the receipt time,
`platform` to `web`). -/
structure ValidEvent where
  user_id : String
  event_name : String
  properties : List (String × PropVal)
  timestamp : Nat
  session_id : Option String
  platform : String
deriving DecidableEq

/-- Embedding of `eventSchema.validate` for one event (validation.ts lines
1160-1171): `user_id` is a required UUID, `event_name` a required string of
length 1..100, `session_id` an optional UUID, `platform` one of
web/android/ios defaulting to `web`, `timestamp` defaults to the server
receipt time `now`, `properties` defaults to the empty map. -/
def validateEvent (now : Nat) (e : RawEvent) : Except VError ValidEvent :=
  match e.user_id with
  | none => .error ⟨["user_id"], "user_id is required"⟩
  | some uid =>
    if !isUuid uid then .error ⟨["user_id"], "user_id must be a valid GUID"⟩
    else match e.event_name with
      | none => .error ⟨["event_name"], "event_name is required"⟩
      | some name =>
        if name.length < 1 || 100 < name.length then
          .error ⟨["event_name"], "event_name length must be between 1 and 100"⟩
        else if !(match e.session_id with
                  | none => true
                  | some sid => isUuid sid) then
          .error ⟨["session_id"], "session_id must be a valid GUID"⟩
        else
          let platform := e.platform.getD "web"
          if !(["web", "android", "ios"].contains platform) then
            .error ⟨["platform"], "platform must be one of web, android, ios"⟩
          else
            .ok { user_id := uid
                  event_name := name
                  properties := e.properties.getD []
                  timestamp := e.timestamp.getD now
                  session_id := e.session_id
                  platform := platform }

/-- Validates the items of a batch from index `i` on, stopping at the first
invalid item and prefixing its error path with the item position, as Joi
does for `Joi.array().items(eventSchema)`. -/
def validateItemsFrom (now : Nat) : Nat → List RawEvent → Except VError (List ValidEvent)
  | _, [] => .ok []
  | i, e :: rest =>
    match validateEvent now e with
    | .error err => .error ⟨"events" :: toString i :: err.path, err.message⟩
    | .ok v =>
      match validateItemsFrom now (i + 1) rest with
      | .error err => .error err
      | .ok vs => .ok (v :: vs)

/-- Embedding of `batchEventsSchema.validate` (validation.ts lines
1173-1175): the `events` array is required, holds 1 to 100 items, and every
item must pass `eventSchema`. -/
def validateBatch (now : Nat) (events : Option (List RawEvent)) :
    Except VError (List ValidEvent) :=
  match events with
  | none => .error ⟨["events"], "events is required"⟩
  | some l =>
    if l.length < 1 then
      .error ⟨["events"], "events must contain at least 1 items"⟩
    else if 100 < l.length then
      .error ⟨["events"], "events must contain less than or equal to 100 items"⟩
    else validateItemsFrom now 0 l

/-- A validated event enriched with the server-observed metadata the route
attaches before persisting (`project_id`, `ip`, `user_agent`). -/
structure StoredEvent where
  user_id : String
  event_name : String
  properties : List (String × PropVal)
  timestamp : Nat
  session_id : Option String
  platform : String
  project_id : String
  ip : String
  user_agent : String
deriving DecidableEq

/-- The enrichment spread performed by both routes
(`{ ...event, project_id, ip, user_agent, timestamp }`). -/
def enrich (projectId ip ua : String) (v : ValidEvent) : StoredEvent :=
  { user_id := v.user_id
    event_name := v.event_name
    properties := v.properties
    timestamp := v.timestamp
    session_id := v.session_id
    platform := v.platform
    project_id := projectId
    ip := ip
    user_agent := ua }

/-- One externally observable side effect of an ingestion request, in the
order the route performs them: the durable ClickHouse insert, the Redis
recent-events cache operations, and the real-time fan-out broadcast. -/
inductive Effect
  | storeWrite (events : List StoredEvent)
  | cachePush (e : StoredEvent)
  | cacheTrim
  | cacheExpire
  | fanout (projectId : String) (e : StoredEvent)
deriving DecidableEq

/-- Outcomes of the external collaborators: whether the ClickHouse insert
succeeds and whether the Redis cache operations succeed. -/
structure Oracle where
  storeOk : Bool
  cacheOk : Bool
deriving DecidableEq

/-- The parts of the HTTP response the claims are about: the status code and
the structured validation error (present on a 400). -/
structure Response where
  status : Nat
  validationError : Option VError := none
deriving DecidableEq

/-- Embedding of `POST /` (events.ts lines 296-339): validate, enrich,
insert into ClickHouse, push/trim/expire the recent-events cache, broadcast.
A validation failure returns 400 with the structured error and performs no
effect; a failing insert is caught and returns 500 having performed no
effect; a failing cache operation is caught and returns 500 after the
durable write. -/
def singleHandler (projectId ip ua : String) (now : Nat) (body : RawEvent)
    (o : Oracle) : Response × List Effect :=
  match validateEvent now body with
  | .error err => ({ status := 400, validationError := some err }, [])
  | .ok v =>
    let e := enrich projectId ip ua v
    if !o.storeOk then ({ status := 500 }, [])
    else if !o.cacheOk then ({ status := 500 }, [.storeWrite [e]])
    else ({ status := 201 },
      [.storeWrite [e], .cachePush e, .cacheTrim, .cacheExpire,
        .fanout projectId e])

/-- Embedding of `POST /batch` (events.ts lines 342-394): validate the whole
body with `batchEventsSchema`, enrich every event, insert all of them in one
ClickHouse write, then pipeline the cache pushes and trim/expire, then
broadcast each event.  Failure handling is as in `singleHandler`; a failing
cache pipeline leaves no cache update behind. -/
def batchHandler (projectId ip ua : String) (now : Nat)
    (body : Option (List RawEvent)) (o : Oracle) : Response × List Effect :=
  match validateBatch now body with
  | .error err => ({ status := 400, validationError := some err }, [])
  | .ok vs =>
    let stored := vs.map (enrich projectId ip ua)
    if !o.storeOk then ({ status := 500 }, [])
    else if !o.cacheOk then ({ status := 500 }, [.storeWrite stored])
    else ({ status := 201 },
      .storeWrite stored ::
        (stored.map .cachePush ++ [.cacheTrim, .cacheExpire]
          ++ stored.map (.fanout projectId)))

/-- An effect is a cache update or a fan-out publish. -/
def cacheOrFanout : Effect → Bool
  | .storeWrite _ => false
  | .cachePush _ => true
  | .cacheTrim => true
  | .cacheExpire => true
  | .fanout _ _ => true

/-- Every cache or fan-out effect in the trace happens strictly after a
durable store write. -/
def writeFirst (effs : List Effect) : Prop :=
  ∀ i e, effs.get? i = some e → cacheOrFanout e = true →
    ∃ j l, j < i ∧ effs.get? j = some (Effect.storeWrite l)

theorem writeFirst_nil : writeFirst [] := by
  intro i e hi
  simp at hi

theorem writeFirst_store_cons (l : List StoredEvent) (rest : List Effect) :
    writeFirst (Effect.storeWrite l :: rest) := by
  intro i e hi hcf
  match i with
  | 0 =>
    simp only [List.get?_cons_zero, Option.some.injEq] at hi
    rw [← hi] at hcf
    simp [cacheOrFanout] at hcf
  | n + 1 =>
    exact ⟨0, l, Nat.succ_pos n, rfl⟩

/-- Whether a value of `Except` is an error. -/
def exceptFailed {ε α : Type} : Except ε α → Bool
  | .error _ => true
  | .ok _ => false

/-- Helper: a batch with an invalid member fails item validation with an
error whose path names the offending item. -/
theorem validateItemsFrom_error (now : Nat) (l : List RawEvent) (i : Nat)
    (h : ∃ e ∈ l, exceptFailed (validateEvent now e) = true) :
    ∃ err, validateItemsFrom now i l = .error err ∧ err.path ≠ [] := by
  induction l generalizing i with
  | nil =>
    obtain ⟨e, he, _⟩ := h
    cases he
  | cons a t ih =>
    obtain ⟨e, he, hfail⟩ := h
    rcases List.mem_cons.mp he with rfl | ht
    · cases hv : validateEvent now e with
      | error err =>
        exact ⟨⟨"events" :: toString i :: err.path, err.message⟩,
          by simp [validateItemsFrom, hv], by simp⟩
      | ok v =>
        rw [hv] at hfail
        simp [exceptFailed] at hfail
    · cases hv : validateEvent now a with
      | error err =>
        exact ⟨⟨"events" :: toString i :: err.path, err.message⟩,
          by simp [validateItemsFrom, hv], by simp⟩
      | ok v =>
        obtain ⟨err, herr, hpath⟩ := ih (i + 1) ⟨e, ht, hfail⟩
        exact ⟨err, by simp [validateItemsFrom, hv, herr], hpath⟩

/-- C4: a batch ingestion request in which at least one submitted event
fails `eventSchema` validation is rejected as a whole: the response is a 400
carrying a structured error that identifies the offending field, and no
store write, cache update or fan-out occurs. -/
theorem c4_batch_all_or_nothing (projectId ip ua : String) (now : Nat)
    (events : List RawEvent) (o : Oracle)
    (h : ∃ e ∈ events, exceptFailed (validateEvent now e) = true) :
    (batchHandler projectId ip ua now (some events) o).1.status = 400 ∧
      (∃ err, (batchHandler projectId ip ua now (some events) o).1.validationError
          = some err ∧ err.path ≠ []) ∧
      (batchHandler projectId ip ua now (some events) o).2 = [] := by
  have hne : events ≠ [] := by
    rintro rfl
    obtain ⟨e, he, _⟩ := h
    cases he
  have hlen : ¬ events.length < 1 := by
    simpa [Nat.lt_one_iff, List.length_eq_zero] using hne
  by_cases hbig : 100 < events.length
  · have hval : validateBatch now (some events) =
        .error ⟨["events"], "events must contain less than or equal to 100 items"⟩ := by
      simp [validateBatch, hlen, hbig]
    refine ⟨?_,
      ⟨⟨["events"], "events must contain less than or equal to 100 items"⟩,
        ?_, by simp⟩, ?_⟩ <;> simp [batchHandler, hval]
  · obtain ⟨err, herr, hpath⟩ := validateItemsFrom_error now events 0 h
    have hval : validateBatch now (some events) = .error err := by
      simp [validateBatch, hlen, hbig, herr]
    refine ⟨?_, ⟨err, ?_, hpath⟩, ?_⟩ <;> simp [batchHandler, hval]

/-- A valid raw event used by witnesses. -/
def rawOk : RawEvent :=
  { user_id := some "123e4567-e89b-12d3-a456-426614174000"
    event_name := some "page_view"
    properties := some [("page", PropVal.str "/pricing")] }

/-- A second valid raw event used by witnesses. -/
def rawOk2 : RawEvent :=
  { user_id := some "123e4567-e89b-12d3-a456-426614174001"
    event_name := some "button_click" }

/-- An invalid raw event (malformed `user_id`) used by witnesses. -/
def rawBad : RawEvent :=
  { user_id := some "not-a-uuid"
    event_name := some "page_view" }

/-- C4 witness: the concrete batch `[valid, valid, invalid]` is rejected
with a 400 and performs zero side effects. -/
theorem c4_batch_all_or_nothing_witness :
    (batchHandler "p1" "1.2.3.4" "UA" 0 (some [rawOk, rawOk2, rawBad])
        ⟨true, true⟩).1.status = 400 ∧
      (batchHandler "p1" "1.2.3.4" "UA" 0 (some [rawOk, rawOk2, rawBad])
        ⟨true, true⟩).2 = [] := by
  have h := c4_batch_all_or_nothing "p1" "1.2.3.4" "UA" 0 [rawOk, rawOk2, rawBad]
    ⟨true, true⟩ ⟨rawBad, by decide, by decide⟩
  exact ⟨h.1, h.2.2⟩

/-- C5: on both ingestion routes, the durable store write precedes every
cache update and every fan-out publish, and when the durable write fails the
request fails with an error response having performed no cache update and no
fan-out. -/
theorem c5_durable_write_ordering (projectId ip ua : String) (now : Nat)
    (body : RawEvent) (events : Option (List RawEvent)) (o : Oracle) :
    (writeFirst (singleHandler projectId ip ua now body o).2 ∧
      (o.storeOk = false →
        (singleHandler projectId ip ua now body o).2 = [] ∧
          ((singleHandler projectId ip ua now body o).1.status = 400 ∨
            (singleHandler projectId ip ua now body o).1.status = 500))) ∧
    (writeFirst (batchHandler projectId ip ua now events o).2 ∧
      (o.storeOk = false →
        (batchHandler projectId ip ua now events o).2 = [] ∧
          ((batchHandler projectId ip ua now events o).1.status = 400 ∨
            (batchHandler projectId ip ua now events o).1.status = 500))) := by
  constructor
  · cases hv : validateEvent now body with
    | error err =>
      constructor
      · simpa [singleHandler, hv] using writeFirst_nil
      · intro _
        simp [singleHandler, hv]
    | ok v =>
      constructor
      · cases hs : o.storeOk with
        | false => simpa [singleHandler, hv, hs] using writeFirst_nil
        | true =>
          cases hc : o.cacheOk with
          | false =>
            simpa [singleHandler, hv, hs, hc] using
              writeFirst_store_cons [enrich projectId ip ua v] []
          | true =>
            simpa [singleHandler, hv, hs, hc] using
              writeFirst_store_cons [enrich projectId ip ua v] _
      · intro hs
        simp [singleHandler, hv, hs]
  · cases hv : validateBatch now events with
    | error err =>
      constructor
      · simpa [batchHandler, hv] using writeFirst_nil
      · intro _
        simp [batchHandler, hv]
    | ok vs =>
      constructor
      · cases hs : o.storeOk with
        | false => simpa [batchHandler, hv, hs] using writeFirst_nil
        | true =>
          cases hc : o.cacheOk with
          | false =>
            simpa [batchHandler, hv, hs, hc] using
              writeFirst_store_cons (vs.map (enrich projectId ip ua)) []
          | true =>
            simpa [batchHandler, hv, hs, hc] using
              writeFirst_store_cons (vs.map (enrich projectId ip ua)) _
      · intro hs
        simp [batchHandler, hv, hs]

/-- C5 witness: with a failing durable write, the concrete batch request
performs no side effect at all and answers 500. -/
theorem c5_durable_write_ordering_witness :
    (batchHandler "p1" "1.2.3.4" "UA" 0 (some [rawOk]) ⟨false, true⟩).2 = [] ∧
      ((batchHandler "p1" "1.2.3.4" "UA" 0 (some [rawOk]) ⟨false, true⟩).1.status = 400 ∨
        (batchHandler "p1" "1.2.3.4" "UA" 0 (some [rawOk]) ⟨false, true⟩).1.status = 500) :=
  (c5_durable_write_ordering "p1" "1.2.3.4" "UA" 0 rawOk (some [rawOk])
    ⟨false, true⟩).2.2 rfl

end Ingest

/-! ### Client event buffer (`sdk/web/src/index.ts`, class `Analytics`) -/

namespace Sdk

/-- SDK configuration defaults (index.ts lines 69-78). -/
structure SdkConfig where
  batchSize : Nat := 20
  retryAttempts : Nat := 3
  offlineEnabled : Bool := true
deriving DecidableEq

/-- A queued event (interface `QueuedEvent`): tracking data plus the
client-assigned `id` and the `retries` counter. -/
structure QueuedEvent where
  id : String
  user_id : String
  event_name : String
  properties : List (String × Ingest.PropVal)
  timestamp : Nat
  session_id : String
  platform : String
  retries : Nat
deriving DecidableEq

/-- The payload actually transmitted for one event: `sendEvents` and
`sendEventsSync` both strip `id` and `retries` before the wire
(`events.map(({ id, retries, ...event }) => event)`). -/
structure SentEvent where
  user_id : String
  event_name : String
  properties : List (String × Ingest.PropVal)
  timestamp : Nat
  session_id : String
  platform : String
deriving DecidableEq

/-- Strips `id` and `retries` from a queued event for transmission. -/
def stripForSend (e : QueuedEvent) : SentEvent :=
  { user_id := e.user_id
    event_name := e.event_name
    properties := e.properties
    timestamp := e.timestamp
    session_id := e.session_id
    platform := e.platform }

/-- Which delivery primitive carried a transmission: the normal asynchronous
`fetch` POST of `sendEvents`, or the fire-and-forget
`sendBeacon`/synchronous-XHR path of `sendEventsSync`. -/
inductive SendKind
  | httpPost
  | beacon
deriving DecidableEq

/-- The SDK state the claims are about: the in-memory queue, the
local-storage snapshot under `analytics_queue` (`none` when absent), the
connectivity flag, and the log of batches handed to the network, in order. -/
structure SdkState where
  queue : List QueuedEvent
  snapshot : Option (List QueuedEvent)
  isOnline : Bool
  sent : List (SendKind × List SentEvent)
deriving DecidableEq

/-- `saveQueuedEvents` (index.ts lines 335-341): overwrites the snapshot
with the current queue; only called when `offlineEnabled`. -/
def saveSnapshot (cfg : SdkConfig) (s : SdkState) : SdkState :=
  if cfg.offlineEnabled then { s with snapshot := some s.queue } else s

/-- Embedding of `sendEvents` (index.ts lines 246-291), run to completion
with network outcome `netOk`.  When offline (and offline support is on) it
returns immediately — without touching the queue, the snapshot or the wire.
On success the batch goes out as one `httpPost` transmission and the
snapshot is re-saved.  On failure, exactly the events whose `retries` is
below `retryAttempts` are put back at the front of the queue with `retries`
incremented (`filter` then `forEach`-increment then `unshift`), and the
snapshot is re-saved. -/
def sendEventsStep (cfg : SdkConfig) (events : List QueuedEvent) (netOk : Bool)
    (s : SdkState) : SdkState :=
  if !s.isOnline && cfg.offlineEnabled then s
  else if netOk then
    saveSnapshot cfg
      { s with sent := s.sent ++ [(SendKind.httpPost, events.map stripForSend)] }
  else
    saveSnapshot cfg
      { s with queue :=
          ((events.filter (fun e => e.retries < cfg.retryAttempts)).map
            (fun e => { e with retries := e.retries + 1 })) ++ s.queue }

/-- Embedding of `flush` (index.ts lines 226-244): an empty queue is a
no-op; otherwise the queue is copied and cleared in one step, `sendEvents`
runs on the copy, and when `synchronous = true` the same copy is
additionally handed to `sendEventsSync`, recorded as a `beacon`
transmission. -/
def flushStep (cfg : SdkConfig) (synchronous : Bool) (netOk : Bool)
    (s : SdkState) : SdkState :=
  if s.queue.isEmpty then s
  else
    let eventsToSend := s.queue
    let s2 := sendEventsStep cfg eventsToSend netOk { s with queue := [] }
    if synchronous then
      { s2 with sent := s2.sent ++ [(SendKind.beacon, eventsToSend.map stripForSend)] }
    else s2

/-- Embedding of `track` (index.ts lines 142-169): append the new event,
flush when the batch size is reached, then persist the snapshot when
offline support is on. -/
def trackStep (cfg : SdkConfig) (e : QueuedEvent) (netOk : Bool)
    (s : SdkState) : SdkState :=
  let s1 := { s with queue := s.queue ++ [e] }
  let s2 := if cfg.batchSize ≤ s1.queue.length then flushStep cfg false netOk s1 else s1
  saveSnapshot cfg s2

/-- Embedding of the periodic flush timer body (index.ts lines 312-318):
flush whenever the queue is non-empty. -/
def periodicFlushStep (cfg : SdkConfig) (netOk : Bool) (s : SdkState) : SdkState :=
  if s.queue.isEmpty then s else flushStep cfg false netOk s

/-- Embedding of `handleOnline` (index.ts lines 320-328): mark online, then
flush anything queued. -/
def handleOnlineStep (cfg : SdkConfig) (netOk : Bool) (s : SdkState) : SdkState :=
  let s1 := { s with isOnline := true }
  if s1.queue.isEmpty then s1 else flushStep cfg false netOk s1

/-- Embedding of `handleOffline` (index.ts lines 330-333). -/
def handleOfflineStep (s : SdkState) : SdkState := { s with isOnline := false }

end Sdk

/-! ### Claim C6: retry and drop on delivery failure -/

/-- C6: when a delivery attempt of `events` fails while online, the new
queue starts with exactly the batch events whose retry count is strictly
below the ceiling, in their original relative order and each with its retry
count incremented by one, followed by the previous queue contents; every
event of the batch whose retry count has reached the ceiling is dropped —
provided it is the unique batch member with its id and its id is not in the
remaining queue, no event with its id appears in the queue afterwards. -/
theorem c6_requeue_below_ceiling (cfg : Sdk.SdkConfig)
    (events : List Sdk.QueuedEvent) (s : Sdk.SdkState)
    (hOnline : s.isOnline = true) :
    ((Sdk.sendEventsStep cfg events false s).queue.map (fun e => e.id) =
        (events.filter (fun e => e.retries < cfg.retryAttempts)).map (fun e => e.id)
          ++ s.queue.map (fun e => e.id)) ∧
    (∀ e ∈ events, e.retries < cfg.retryAttempts →
        { e with retries := e.retries + 1 } ∈ (Sdk.sendEventsStep cfg events false s).queue) ∧
    (∀ e ∈ events, cfg.retryAttempts ≤ e.retries →
        (∀ q ∈ events, q.id = e.id → q = e) →
        (∀ q ∈ s.queue, q.id ≠ e.id) →
        ∀ q ∈ (Sdk.sendEventsStep cfg events false s).queue, q.id ≠ e.id) := by
  have hq : (Sdk.sendEventsStep cfg events false s).queue =
      ((events.filter (fun e => e.retries < cfg.retryAttempts)).map
        (fun e => { e with retries := e.retries + 1 })) ++ s.queue := by
    simp [Sdk.sendEventsStep, hOnline, Sdk.saveSnapshot]
    split <;> rfl
  refine ⟨?_, ?_, ?_⟩
  · rw [hq]
    simp [List.map_map, Function.comp]
  · intro e he hlt
    rw [hq]
    refine List.mem_append_left _ (List.mem_map.mpr ⟨e, ?_, rfl⟩)
    exact List.mem_filter.mpr ⟨he, by simpa using hlt⟩
  · intro e he hge huniq hqueue q hmem
    rw [hq] at hmem
    rcases List.mem_append.mp hmem with hl | hr
    · obtain ⟨e2, he2, rfl⟩ := List.mem_map.mp hl
      have he2f := List.mem_filter.mp he2
      intro hid
      have : e2 = e := huniq e2 he2f.1 hid
      subst this
      have := he2f.2
      simp at this
      omega
    · exact hqueue q hr

/-- Concrete configuration for the SDK witnesses (the source defaults). -/
def cfgW : Sdk.SdkConfig := {}

/-- Witness event with no prior retries. -/
def qa : Sdk.QueuedEvent :=
  { id := "a", user_id := "u", event_name := "page_view", properties := []
    timestamp := 1, session_id := "s", platform := "web", retries := 0 }

/-- Witness event whose retry budget (ceiling 3) is exhausted. -/
def qb : Sdk.QueuedEvent :=
  { id := "b", user_id := "u", event_name := "page_view", properties := []
    timestamp := 2, session_id := "s", platform := "web", retries := 3 }

/-- Witness event with retries just below the ceiling. -/
def qc : Sdk.QueuedEvent :=
  { id := "c", user_id := "u", event_name := "click", properties := []
    timestamp := 3, session_id := "s", platform := "web", retries := 2 }

/-- Online SDK state with an empty queue, used by witnesses. -/
def sW : Sdk.SdkState := { queue := [], snapshot := none, isOnline := true, sent := [] }

/-- C6 witness: failing to deliver `[a(retries 0), b(retries 3), c(retries 2)]`
with ceiling 3 requeues exactly `a` and `c` (in order, retries bumped) and
drops `b` for good. -/
theorem c6_requeue_below_ceiling_witness :
    ((Sdk.sendEventsStep cfgW [qa, qb, qc] false sW).queue.map (fun e => e.id)
        = ["a", "c"]) ∧
      (∀ q ∈ (Sdk.sendEventsStep cfgW [qa, qb, qc] false sW).queue, q.id ≠ "b") := by
  have h := c6_requeue_below_ceiling cfgW [qa, qb, qc] sW rfl
  constructor
  · rw [h.1]
    decide
  · have hb := h.2.2 qb (by decide) (by decide) (by decide) (by decide)
    exact hb

/-! ### Claim C7: offline tracking followed by reconnect replay -/

/-- The event tracked while offline in the C7 scenario. -/
def e7 : Sdk.QueuedEvent :=
  { id := "e7", user_id := "u", event_name := "page_view", properties := []
    timestamp := 10, session_id := "s", platform := "web", retries := 0 }

/-- Fresh online SDK state for the C7 scenario. -/
def s7 : Sdk.SdkState := { queue := [], snapshot := none, isOnline := true, sent := [] }

/-- The C7 scenario, executed on the embedded SDK: go offline, track one
event, let the periodic 10-second flush timer fire once while still
offline, then receive the online signal with a network that would succeed
on the first attempt. -/
def c7run : Sdk.SdkState :=
  Sdk.handleOnlineStep cfgW true
    (Sdk.periodicFlushStep cfgW true
      (Sdk.trackStep cfgW e7 true
        (Sdk.handleOfflineStep s7)))

/-- C7 (code bug): the tracked event is persisted to the snapshot as
claimed, but after a periodic flush fires while offline the event is gone
from the queue — `flush` clears the queue and the offline early-return of
`sendEvents` never puts the batch back — so on reconnect nothing is
delivered: the transmission log stays empty and the queue is empty, losing
the event instead of delivering it exactly once. -/
theorem c7_offline_replay_loses_events :
    (Sdk.trackStep cfgW e7 true (Sdk.handleOfflineStep s7)).snapshot = some [e7] ∧
      c7run.sent = [] ∧ c7run.queue = [] := by
  refine ⟨by decide, by decide, by decide⟩

/-! ### Claim C8: synchronous flush delivery -/

/-- Online SDK state holding one queued event, for the C8 scenarios. -/
def s8 : Sdk.SdkState :=
  { queue := [qa], snapshot := some [qa], isOnline := true, sent := [] }

/-- Number of times the payload `t` is transmitted across all logged
batches. -/
def deliveredCount (t : Sdk.SentEvent) (s : Sdk.SdkState) : Nat :=
  (s.sent.map (fun p => p.2.count t)).sum

/-- C8 counterexample: `flush(synchronous = true)` does not use only the
fire-and-forget primitive — it starts the normal asynchronous `sendEvents`
request AND hands the same batch to `sendEventsSync`, so with a working
network the single queued event is transmitted twice, refuting the
at-most-once part of the claim. -/
theorem c8_sync_flush_double_sends :
    (Sdk.flushStep cfgW true true s8).sent =
        [(Sdk.SendKind.httpPost, [Sdk.stripForSend qa]),
          (Sdk.SendKind.beacon, [Sdk.stripForSend qa])] ∧
      deliveredCount (Sdk.stripForSend qa) (Sdk.flushStep cfgW true true s8) = 2 := by
  refine ⟨by decide, by decide⟩

/-- C8 (amended): `flush` atomically takes and clears the queue before
attempting delivery, and with `synchronous = true` the taken batch is handed
to the fire-and-forget primitive in addition to the normal asynchronous
request — so when both go out, the batch appears exactly twice in the
transmission log and the queue is left empty. -/
theorem c8_sync_flush_clears_and_sends_both (cfg : Sdk.SdkConfig)
    (s : Sdk.SdkState) (hq : s.queue ≠ []) (hOnline : s.isOnline = true) :
    (Sdk.flushStep cfg true true s).queue = [] ∧
      (Sdk.flushStep cfg true true s).sent =
        s.sent ++ [(Sdk.SendKind.httpPost, s.queue.map Sdk.stripForSend),
          (Sdk.SendKind.beacon, s.queue.map Sdk.stripForSend)] := by
  have hne : s.queue.isEmpty = false := by
    cases hl : s.queue with
    | nil => exact absurd hl hq
    | cons a t => rfl
  constructor <;>
    simp [Sdk.flushStep, hne, Sdk.sendEventsStep, hOnline, Sdk.saveSnapshot] <;>
    split <;> simp

/-- C8 witness: on the concrete one-event state the synchronous flush leaves
an empty queue and logs the http and beacon transmissions of that event. -/
theorem c8_sync_flush_clears_and_sends_both_witness :
    (Sdk.flushStep cfgW true true s8).queue = [] ∧
      (Sdk.flushStep cfgW true true s8).sent =
        s8.sent ++ [(Sdk.SendKind.httpPost, s8.queue.map Sdk.stripForSend),
          (Sdk.SendKind.beacon, s8.queue.map Sdk.stripForSend)] :=
  c8_sync_flush_clears_and_sends_both cfgW s8 (by decide) rfl

/-! ### Funnel analysis (`backend/src/routes/analytics.ts`, `GET /funnel`) -/

namespace Funnel

/-- JS `Math.round(x * 100) / 100`: rounding to two decimals.  JavaScript
number arithmetic is modelled by exact rationals; `Math.round` is
floor(x + 1/2). -/
def round2 (x : ℚ) : ℚ := ((⌊x * 100 + 1 / 2⌋ : ℤ) : ℚ) / 100

/-- One formatted funnel step of the response (analytics.ts lines 679-684). -/
structure FunnelStep where
  step : Nat
  event_name : String
  users : Nat
  conversion_rate : ℚ
deriving DecidableEq

/-- The step record the handler builds for `index` (analytics.ts lines
674-685): `stepUsers` is the observed user count of the step (`|| 0` when
absent), the previous-step count backs off to the step count itself at
index 0, and the conversion rate is `stepUsers / previousStepUsers * 100`
when the previous count is positive and `0` otherwise, rounded to two
decimals. -/
def funnelStepAt (events : List String) (users : List Nat) (index : Nat) :
    FunnelStep :=
  let stepUsers := users.getD index 0
  let previousStepUsers := if 0 < index then users.getD (index - 1) 0 else stepUsers
  { step := index + 1
    event_name := events.getD index ""
    users := stepUsers
    conversion_rate :=
      round2 (if 0 < previousStepUsers then
          (stepUsers : ℚ) / (previousStepUsers : ℚ) * 100
        else 0) }

/-- The formatted funnel response: the map over the ordered step list with
its index (`events.map((event, index) => ...)`).  `users` carries the
per-step user counts observed from the store (`rawData.step_i_users`). -/
def funnelSteps (events : List String) (users : List Nat) : List FunnelStep :=
  (List.range events.length).map (funnelStepAt events users)

/-- Embedding of the `GET /funnel` handler core (analytics.ts lines
637-691): fewer than 2 steps is a validation error (400), otherwise the
formatted funnel is returned. -/
def funnelHandler (events : List String) (users : List Nat) :
    Except String (List FunnelStep) :=
  if events.length < 2 then
    Except.error "At least 2 events required for funnel analysis"
  else Except.ok (funnelSteps events users)

theorem round2_zero : round2 0 = 0 := by norm_num [round2]

theorem round2_hundred : round2 100 = 100 := by norm_num [round2]

theorem round2_ite (c : Prop) [Decidable c] (x : ℚ) :
    round2 (if c then x else 0) = if c then round2 x else 0 := by
  by_cases h : c <;> simp [h, round2_zero]

/-- The conversion rate of the first funnel step: 100 when the observed
first-step count is positive, otherwise 0. -/
theorem funnelStepAt_zero_rate (events : List String) (users : List Nat) :
    (funnelStepAt events users 0).conversion_rate =
      if 0 < users.getD 0 0 then 100 else 0 := by
  unfold funnelStepAt
  simp only [lt_irrefl, if_false]
  rw [round2_ite]
  by_cases h : 0 < users.getD 0 0
  · have hu : ((users.getD 0 0 : Nat) : ℚ) ≠ 0 := Nat.cast_ne_zero.mpr h.ne'
    simp only [if_pos h, div_self hu, one_mul, round2_hundred]
  · simp only [if_neg h]

/-- The conversion rate of a later funnel step follows the
previous-step-count guard. -/
theorem funnelStepAt_pos_rate (events : List String) (users : List Nat)
    (i : Nat) (hi : 0 < i) :
    (funnelStepAt events users i).conversion_rate =
      if 0 < users.getD (i - 1) 0 then
        round2 ((users.getD i 0 : ℚ) / (users.getD (i - 1) 0 : ℚ) * 100)
      else 0 := by
  unfold funnelStepAt
  simp only [if_pos hi]
  exact round2_ite _ _

end Funnel

/-! ### Claim C9: funnel conversion rates -/

/-- C9 counterexample: the claim fixes the first step rate at 100 even when
the first step's user count is 0, but on observed counts `[0, 5]` the code
computes a conversion rate of 0 for the first step (its guard
`previousStepUsers > 0` fails), not 100. -/
theorem c9_zero_first_step_not_100 :
    (Funnel.funnelSteps ["a", "b"] [0, 5]).map (fun st => st.conversion_rate)
        = [0, 0] ∧ (0 : ℚ) ≠ 100 := by
  constructor
  · norm_num [Funnel.funnelSteps, Funnel.funnelStepAt, Funnel.round2,
      List.range_succ]
  · norm_num

/-- C9 (amended): a funnel request with fewer than 2 steps is rejected as a
validation error; with at least 2 steps the response holds one step record
per event, where the first step's rate is 100 when its user count is
positive and 0 when it is 0, and the rate of step `i > 0` is
`users[i] / users[i-1] * 100` rounded to two decimals when `users[i-1]` is
positive and 0 otherwise. -/
theorem c9_funnel_rates (events : List String) (users : List Nat) :
    (events.length < 2 →
      Funnel.funnelHandler events users =
        Except.error "At least 2 events required for funnel analysis") ∧
    (2 ≤ events.length →
      Funnel.funnelHandler events users =
        Except.ok (Funnel.funnelSteps events users)) ∧
    (∀ i, i < events.length →
      (Funnel.funnelSteps events users).get? i =
        some (Funnel.funnelStepAt events users i)) ∧
    (0 < users.getD 0 0 →
      (Funnel.funnelStepAt events users 0).conversion_rate = 100) ∧
    (users.getD 0 0 = 0 →
      (Funnel.funnelStepAt events users 0).conversion_rate = 0) ∧
    (∀ i, 0 < i →
      (Funnel.funnelStepAt events users i).conversion_rate =
        if 0 < users.getD (i - 1) 0 then
          Funnel.round2 ((users.getD i 0 : ℚ) / (users.getD (i - 1) 0 : ℚ) * 100)
        else 0) := by
  refine ⟨?_, ?_, ?_, ?_, ?_, ?_⟩
  · intro h
    simp [Funnel.funnelHandler, h]
  · intro h
    simp [Funnel.funnelHandler, Nat.not_lt.mpr h]
  · intro i hi
    simp [Funnel.funnelSteps, List.getElem?_map, List.getElem?_range, hi]
  · intro h
    rw [Funnel.funnelStepAt_zero_rate, if_pos h]
  · intro h
    rw [Funnel.funnelStepAt_zero_rate, if_neg (by omega)]
  · intro i hi
    exact Funnel.funnelStepAt_pos_rate events users i hi

/-- C9 witness: the spec example — counts `[1000, 300, 45]` over three steps
yield conversion rates `[100, 30, 15]`, and the request is accepted. -/
theorem c9_funnel_rates_witness :
    Funnel.funnelHandler ["A", "B", "C"] [1000, 300, 45] =
        Except.ok (Funnel.funnelSteps ["A", "B", "C"] [1000, 300, 45]) ∧
      (Funnel.funnelSteps ["A", "B", "C"] [1000, 300, 45]).map
          (fun st => st.conversion_rate) = [100, 30, 15] := by
  refine ⟨(c9_funnel_rates ["A", "B", "C"] [1000, 300, 45]).2.1 (by decide), ?_⟩
  norm_num [Funnel.funnelSteps, Funnel.funnelStepAt, Funnel.round2,
    List.range_succ]

/-! ### Real-time fan-out (`backend/src/services/realtimeService.ts`) -/

namespace Realtime

/-- One socket.io emission: the room it targets, the emitted event name and
the payload. -/
structure Emission where
  topic : String
  eventName : String
  payload : Ingest.StoredEvent
deriving DecidableEq

/-- Embedding of `RealtimeService.broadcastEvent`: emits `new_event` to the
room `project_<projectId>` with the payload
`{ ...event, timestamp: new Date().toISOString() }`; `broadcastNow` is the
server time at the moment of broadcast. -/
def broadcastEvent (projectId : String) (event : Ingest.StoredEvent)
    (broadcastNow : Nat) : Emission :=
  { topic := "project_" ++ projectId
    eventName := "new_event"
    payload := { event with timestamp := broadcastNow } }

end Realtime

/-! ### Claim C10: broadcast timestamp overwrite -/

/-- C10: the payload delivered to the tenant's topic by `broadcastEvent` has
its `timestamp` overwritten with the server broadcast time while every other
field of the event passes through unchanged, and it targets the
`project_<id>` room under the event name `new_event`. -/
theorem c10_broadcast_overwrites_timestamp (projectId : String)
    (event : Ingest.StoredEvent) (broadcastNow : Nat) :
    (Realtime.broadcastEvent projectId event broadcastNow).topic
        = "project_" ++ projectId ∧
    (Realtime.broadcastEvent projectId event broadcastNow).eventName = "new_event" ∧
    (Realtime.broadcastEvent projectId event broadcastNow).payload.timestamp
        = broadcastNow ∧
    (Realtime.broadcastEvent projectId event broadcastNow).payload.user_id
        = event.user_id ∧
    (Realtime.broadcastEvent projectId event broadcastNow).payload.event_name
        = event.event_name ∧
    (Realtime.broadcastEvent projectId event broadcastNow).payload.properties
        = event.properties ∧
    (Realtime.broadcastEvent projectId event broadcastNow).payload.session_id
        = event.session_id ∧
    (Realtime.broadcastEvent projectId event broadcastNow).payload.platform
        = event.platform ∧
    (Realtime.broadcastEvent projectId event broadcastNow).payload.project_id
        = event.project_id ∧
    (Realtime.broadcastEvent projectId event broadcastNow).payload.ip = event.ip ∧
    (Realtime.broadcastEvent projectId event broadcastNow).payload.user_agent
        = event.user_agent :=
  ⟨rfl, rfl, rfl, rfl, rfl, rfl, rfl, rfl, rfl, rfl, rfl⟩
